import Mathlib

/-
Verification of the lead-generation Streamlit app (src/app.py).

The file shallowly embeds the app's four core functions:
  filter_companies, add_insights, generate_email_template,
  generate_email_with_groq
over explicit Lean data types, and proves the specification claims
about them.  Python dictionaries holding company data are modelled as
records with optional fields; Python's dynamically typed values (as
they occur in this program: None, bool, int, str, list, dict) are
modelled by the inductive type `PyV`.  The remote HTTP call and the
standard-library JSON parser are external effects/dependencies of the
program; they enter the embedding as explicit parameters
(`RemoteOutcome`, and a `jsonLoads` function argument), so that the
app's own control flow around them is modelled exactly.
-/

namespace App

/-- Python values of the shapes this program manipulates.  JSON numbers
are modelled as integers (the program never computes with them; it only
stores them), and floats do not occur in the app's data flow. -/
inductive PyV where
  | noneV : PyV
  | boolV : Bool → PyV
  | intV : Int → PyV
  | strV : String → PyV
  | listV : List PyV → PyV
  | dictV : List (String × PyV) → PyV

/-- Python truthiness for the values of `PyV` (bool(x)). -/
def pyTruthy : PyV → Bool
  | .noneV => false
  | .boolV b => b
  | .intV n => decide (n ≠ 0)
  | .strV s => decide (s ≠ "")
  | .listV xs => !xs.isEmpty
  | .dictV fs => !fs.isEmpty

/-- Python type name of a value, as it appears in error messages such
as AttributeError. -/
def pyTypeName : PyV → String
  | .noneV => "NoneType"
  | .boolV _ => "bool"
  | .intV _ => "int"
  | .strV _ => "str"
  | .listV _ => "list"
  | .dictV _ => "dict"

/-- Truthiness of an optional string (api_key may be None or a string;
Python treats None and the empty string as falsy). -/
def pyTruthyOptStr : Option String → Bool
  | none => false
  | some s => decide (s ≠ "")

/-- Rendering a possibly-missing string through a Python f-string:
str(None) is the four-character string None. -/
def pyStr : Option String → String
  | none => "None"
  | some s => s

/-- Rendering a possibly-missing integer through a Python f-string. -/
def pyStrInt : Option Int → String
  | none => "None"
  | some n => toString n

/-- A company record: a Python dict with the five seed-data keys, any
of which may be absent.  Field types follow the data model of the spec
(strings, and an integer employee count). -/
structure Record where
  companyName : Option String := none
  website : Option String := none
  employeeCount : Option Int := none
  industry : Option String := none
  location : Option String := none

/-- A company record whose employeeCount key may hold an arbitrary
Python value, used to study filter_companies over malformed maps. -/
structure RawRecord where
  companyName : Option String := none
  website : Option String := none
  employeeCount : Option PyV := none
  industry : Option String := none
  location : Option String := none

/-- The seed data (SEED_COMPANIES in src/app.py). -/
def SEED_COMPANIES : List Record :=
  [ { companyName := some "TechNova Solutions", website := some "https://technova.example",
      employeeCount := some 120, industry := some "Software", location := some "Bengaluru, IN" },
    { companyName := some "GreenMakers Manufacturing", website := some "https://greenmakers.example",
      employeeCount := some 80, industry := some "Manufacturing", location := some "Pune, IN" },
    { companyName := some "AeroLogix Systems", website := some "https://aerologix.example",
      employeeCount := some 210, industry := some "Logistics", location := some "Hyderabad, IN" } ]

/-- Python str.lower over the ASCII fragment this program handles:
lower-case each character. -/
def pyLower (s : String) : String :=
  String.mk (s.data.map Char.toLower)

/-- Python str.strip with no argument: remove leading and trailing
whitespace. -/
def pyTrim (s : String) : String :=
  String.mk (((s.data.dropWhile Char.isWhitespace).reverse.dropWhile Char.isWhitespace).reverse)

/-- Python s[:n]: the first n characters (code points) of s. -/
def pyTake (s : String) (n : Nat) : String :=
  String.mk (s.data.take n)

/-- Whether `pre` is a prefix of the second list (character-wise). -/
def startsWithList (pre : List Char) : List Char → Bool
  | [] => pre.isEmpty
  | b :: bs =>
    match pre with
    | [] => true
    | a :: as => (a == b) && startsWithList as bs

/-- Whether `needle` occurs as a contiguous run inside `hay`
(the Python substring operator on strings). -/
def containsList (needle : List Char) : List Char → Bool
  | [] => needle.isEmpty
  | c :: rest => startsWithList needle (c :: rest) || containsList needle rest

/-- Python substring test: needle in hay. -/
def strContains (hay needle : String) : Bool :=
  containsList needle.data hay.data

/-- Python str.startswith. -/
def strStartsWith (s pre : String) : Bool :=
  startsWithList pre.data s.data

/-- Python int() applied to a string: optional surrounding whitespace,
an optional sign, then one or more decimal digits. -/
def parsePyInt (s : String) : Option Int :=
  let t := (pyTrim s).data
  let signDigits : Int × List Char :=
    match t with
    | '-' :: rest => (-1, rest)
    | '+' :: rest => (1, rest)
    | l => (1, l)
  let digits := signDigits.2
  if digits ≠ [] ∧ digits.all Char.isDigit then
    some (signDigits.1 * (digits.foldl (fun a c => 10 * a + (c.toNat - '0'.toNat)) 0 : Nat))
  else
    none

/-- Python int(x) on a dynamic value: ints pass through, bools become
0 or 1, integer-formatted strings are parsed, everything else raises
(TypeError or ValueError). -/
def pyIntCoerce : PyV → Except String Int
  | .intV n => .ok n
  | .boolV b => .ok (if b then 1 else 0)
  | .strV s =>
    match parsePyInt s with
    | some n => .ok n
    | none => .error ("ValueError: invalid literal for int() with base 10: " ++ s)
  | v => .error ("TypeError: int() argument cannot be " ++ pyTypeName v)

/-- Worker for Python str.split() with no argument: accumulate the
current token (reversed) and emit it at each whitespace run or at the
end, dropping empty tokens. -/
def splitWSGo (cur : List Char) : List Char → List String
  | [] => if cur.isEmpty then [] else [String.mk cur.reverse]
  | c :: rest =>
    if Char.isWhitespace c then
      if cur.isEmpty then splitWSGo [] rest else String.mk cur.reverse :: splitWSGo [] rest
    else
      splitWSGo (c :: cur) rest

/-- Python str.split() with no argument: split on runs of whitespace,
dropping empty tokens. -/
def pySplitWS (s : String) : List String :=
  splitWSGo [] s.data

/-- Is this character a regex word character (ASCII fragment of \w). -/
def isWordChar (c : Char) : Bool :=
  c.isAlphanum || c == '_'

/-- Does a case-insensitive whole-word in start at the current
position, whose character is `c`, preceded by `prev` (none at the
start of the string) and followed by `rest`.  Models one anchor point
of the regex \bIN\b with re.IGNORECASE over the ASCII fragment. -/
def matchesINAt (prev : Option Char) (c : Char) (rest : List Char) : Bool :=
  match rest with
  | [] => false
  | c2 :: rest2 =>
    (c.toLower == 'i') && (c2.toLower == 'n')
      && (match prev with | none => true | some p => !isWordChar p)
      && (match rest2 with | [] => true | r :: _ => !isWordChar r)

/-- Scan every position of a character list for a whole-word in. -/
def hasWordINFrom (prev : Option Char) : List Char → Bool
  | [] => false
  | c :: rest => matchesINAt prev c rest || hasWordINFrom (some c) rest

/-- The location test of add_insights: re.search of \bIN\b|India with
re.IGNORECASE, i.e. either IN as a standalone word or the letters of
India anywhere, case-insensitively. -/
def locationMatchesIndia (location : String) : Bool :=
  hasWordINFrom none location.data || strContains (pyLower location) "india"

/-- The insight generator add_insights of src/app.py.  The three
industry regexes (software, manufact, logistic) are literal lowercase
patterns searched case-insensitively, i.e. substring tests against the
lower-cased industry. -/
def add_insights (j : Record) : List String :=
  let industry := pyLower (j.industry.getD "")
  let employee_count := j.employeeCount.getD 0
  let location := j.location.getD ""
  let bullets : List String :=
    if strContains industry "software" then
      ["SaaS roadmap includes AI/ML modules",
       "Active in developer ecosystem; likely uses CI/CD"]
    else if strContains industry "manufact" then
      ["Sustainable, lean operations focus",
       "Potential need for shop-floor IoT/SCADA integrations"]
    else if strContains industry "logistic" then
      ["Fleet optimization & real-time tracking",
       "Likely evaluating warehouse automation"]
    else
      ["Expanding digital footprint"]
  let bullets :=
    if employee_count > 150 then bullets ++ ["Mid-market team with scaling pains"] else bullets
  let bullets :=
    if locationMatchesIndia location then bullets ++ ["Operating in India with regional growth"] else bullets
  bullets.take 3

/-- The per-record condition of the filter loop in filter_companies
(src/app.py lines 71-80), for already-normalized queries. -/
def record_ok (industry_q location_q : String) (size_min size_max : Int) (it : Record) : Bool :=
  let employee_count := it.employeeCount.getD 0
  let industry_val := pyLower (it.industry.getD "")
  let location_val := pyLower (it.location.getD "")
  let ok_size := decide (employee_count ≥ size_min) && decide (employee_count ≤ size_max)
  let ok_ind := if industry_q ≠ "" then strContains industry_val industry_q else true
  let ok_loc := if location_q ≠ "" then strContains location_val location_q else true
  ok_size && ok_ind && ok_loc

/-- The accumulation loop of filter_companies: records passing the
condition are appended to the output in input order. -/
def filter_companies_loop (industry_q location_q : String) (size_min size_max : Int) :
    List Record → List Record
  | [] => []
  | it :: rest =>
    if record_ok industry_q location_q size_min size_max it then
      it :: filter_companies_loop industry_q location_q size_min size_max rest
    else
      filter_companies_loop industry_q location_q size_min size_max rest

/-- filter_companies of src/app.py: both queries are lower-cased and
stripped once, then each record is tested. -/
def filter_companies (items : List Record) (industry_q location_q : String)
    (size_min size_max : Int) : List Record :=
  filter_companies_loop (pyTrim (pyLower industry_q)) (pyTrim (pyLower location_q)) size_min size_max items

/-- A record matches, in the words of the spec: employeeCount within
the inclusive range, and each query empty or a case-insensitive
substring of the corresponding field (queries trimmed and
lower-cased). -/
def matchesSpec (industryQuery locationQuery : String) (sizeMin sizeMax : Int) (r : Record) : Bool :=
  let iq := pyTrim (pyLower industryQuery)
  let lq := pyTrim (pyLower locationQuery)
  let ec := r.employeeCount.getD 0
  decide (sizeMin ≤ ec) && decide (ec ≤ sizeMax)
    && (decide (iq = "") || strContains (pyLower (r.industry.getD "")) iq)
    && (decide (lq = "") || strContains (pyLower (r.location.getD "")) lq)

/-- int(it.get(employeeCount, 0)) over a raw record: absent means
int(0), present means int() of the stored value, which may raise. -/
def rawEmployeeCount (it : RawRecord) : Except String Int :=
  match it.employeeCount with
  | none => .ok 0
  | some v => pyIntCoerce v

/-- The filter loop over raw records: the employeeCount value is put
through Python int(), which may raise; str() of the other fields never
raises. -/
def filter_companies_raw_loop (industry_q location_q : String) (size_min size_max : Int) :
    List RawRecord → Except String (List RawRecord)
  | [] => .ok []
  | it :: rest => do
    let employee_count ← rawEmployeeCount it
    let industry_val := pyLower (it.industry.getD "")
    let location_val := pyLower (it.location.getD "")
    let ok_size := decide (employee_count ≥ size_min) && decide (employee_count ≤ size_max)
    let ok_ind := if industry_q ≠ "" then strContains industry_val industry_q else true
    let ok_loc := if location_q ≠ "" then strContains location_val location_q else true
    let out ← filter_companies_raw_loop industry_q location_q size_min size_max rest
    pure (if ok_size && ok_ind && ok_loc then it :: out else out)

/-- filter_companies over raw records (arbitrary Python values in the
employeeCount slot): totality now depends on int() succeeding. -/
def filter_companies_raw (items : List RawRecord) (industry_q location_q : String)
    (size_min size_max : Int) : Except String (List RawRecord) :=
  filter_companies_raw_loop (pyTrim (pyLower industry_q)) (pyTrim (pyLower location_q)) size_min size_max items

/-- A raw record whose employeeCount slot Python int() accepts
(absent, an int, a bool, or an integer-formatted string). -/
def coercibleEmployeeCount (r : RawRecord) : Bool :=
  (rawEmployeeCount r).isOk

/-- The result dict built by the email generators: the five content
keys, plus the source and error keys that generate_email_with_groq
adds (absent, i.e. none, until assigned). -/
structure EmailResult where
  company : PyV
  subject : PyV
  body : PyV
  tone : PyV
  wordCount : PyV
  source : Option String := none
  error : Option String := none

/-- A possibly-missing string as a raw dict value (no str() applied). -/
def optStrPyV : Option String → PyV
  | some s => .strV s
  | none => .noneV

/-- The body text built by generate_email_template (src/app.py lines
180-188): insights joined by a semicolon-space separator, company
name, industry and employee count rendered through f-strings. -/
def template_body (c : Record) (ins : List String) : String :=
  "Hi " ++ pyStr c.companyName ++ ",\n\n"
    ++ "I came across your work at " ++ pyStr c.companyName ++ " and noticed: "
    ++ String.intercalate "; " ins ++ ". "
    ++ "We help teams like yours turn these priorities into measurable outcomes with a lightweight rollout and clear ROI within a few weeks. "
    ++ "If it’s useful, I can share a brief walkthrough tailored to " ++ pyStr c.industry
    ++ " and your current team size of " ++ pyStrInt c.employeeCount ++ ".\n\n"
    ++ "Warm Regards,\n"
    ++ "Rohith Dilip\n"
    ++ "Wednesday Solutions"

/-- The dict returned by generate_email_template when the industry is
the string `ind`: deterministic subject, body, tone, and a word count
that is the whitespace-token count of the body. -/
def templateResult (c : Record) (ins : List String) (ind : String) : EmailResult :=
  { company := optStrPyV c.companyName,
    subject := .strV (pyStr c.companyName ++ ": quick idea to accelerate " ++ pyLower ind ++ " goals"),
    body := .strV (template_body c ins),
    tone := .strV "consultative",
    wordCount := .intV ((pySplitWS (template_body c ins)).length : Int) }

/-- generate_email_template of src/app.py.  The subject interpolates
company.get(industry).lower(); when the industry key is absent that
is None.lower(), an AttributeError, so the operation is fallible. -/
def generate_email_template (c : Record) (ins : List String) : Except String EmailResult :=
  match c.industry with
  | some ind => .ok (templateResult c ins ind)
  | none => .error "AttributeError: \x27NoneType\x27 object has no attribute \x27lower\x27"

/-- Test for the backtick character (code point 96). -/
def isBacktickChar (c : Char) : Bool :=
  c.toNat == 96

/-- Python str.strip applied with the backtick character: remove all
leading and trailing backticks. -/
def stripBackticks (s : String) : String :=
  String.mk (((s.data.dropWhile isBacktickChar).reverse.dropWhile isBacktickChar).reverse)

/-- Normalize Windows and old-Mac line endings to a plain newline, as
Python splitlines treats all three the same way. -/
def normalizeNewlines : List Char → List Char
  | [] => []
  | '\r' :: '\n' :: rest => '\n' :: normalizeNewlines rest
  | '\r' :: rest => '\n' :: normalizeNewlines rest
  | c :: rest => c :: normalizeNewlines rest

/-- Worker for splitlines: accumulate the current line (reversed); a
final newline does not open an empty last line. -/
def splitNLGo (cur : List Char) : List Char → List (List Char)
  | [] => [cur.reverse]
  | '\n' :: [] => [cur.reverse]
  | '\n' :: rest => cur.reverse :: splitNLGo [] rest
  | c :: rest => splitNLGo (c :: cur) rest

/-- Python str.splitlines: the empty string has no lines; otherwise
split at line boundaries, without a trailing empty line. -/
def pyLines (s : String) : List String :=
  if s.data.isEmpty then [] else (splitNLGo [] (normalizeNewlines s.data)).map String.mk

/-- The code-fence stripping of src/app.py lines 141-147: strip
whitespace; if the content starts with a triple backtick, strip all
backticks from both ends, drop a first line that is exactly json
(case-insensitively, after trimming), and rejoin with newlines. -/
def cleanContent (content : String) : String :=
  let cleaned := pyTrim content
  if strStartsWith cleaned "```" then
    let cleaned := stripBackticks cleaned
    let cleaned_lines := pyLines cleaned
    let cleaned_lines :=
      match cleaned_lines with
      | [] => []
      | l :: rest => if pyLower (pyTrim l) = "json" then rest else l :: rest
    String.intercalate "\n" cleaned_lines
  else cleaned

/-- Python dict lookup returning None when the key is absent; for
objects produced by json.loads a duplicated key keeps its last value. -/
def dictLookup (fields : List (String × PyV)) (k : String) : Option PyV :=
  (fields.reverse.find? (fun p => p.1 == k)).map (fun p => p.2)

/-- Python obj.get(k): the stored value, or the None object. -/
def dictGetD (fields : List (String × PyV)) (k : String) : PyV :=
  (dictLookup fields k).getD .noneV

/-- Python x or y on dynamic values: x when truthy, else y. -/
def pyOr (a b : PyV) : PyV :=
  if pyTruthy a then a else b

/-- Default application in the words of the spec: the parsed field
when present and truthy, the default when absent or falsy. -/
def specDefault (parsed : Option PyV) (dflt : PyV) : PyV :=
  match parsed with
  | none => dflt
  | some v => if pyTruthy v then v else dflt

/-- Outcome of the single HTTP POST of generate_email_with_groq, as
seen by the code after requests/raise_for_status/choices extraction:
either a transport or HTTP-status failure (with the response text when
one was received), or the first choice's message content string. -/
inductive RemoteOutcome where
  | httpError (errDesc : String) (respText : Option String)
  | content (raw : String)

/-- generate_email_with_groq of src/app.py.  The ambient GROQ_API_KEY
global is the api_key argument, and the standard-library json.loads is
the jsonLoads argument.  A falsy key short-circuits to the template
with the Missing GROQ_API_KEY error; an HTTP failure or a parse
failure falls back to the template with a diagnostic error string; a
content string whose parse yields a non-dict value raises
AttributeError inside the parse try block (obj.get on a non-dict) and
is therefore also a ParseError fallback; a dict parse builds the groq
result with per-field or-defaults.  The truthy-credential part (the
try block of src/app.py lines 120-175) is the helper
groq_remote_result below, by outcome of the HTTP call. -/
def groq_remote_result (company : Record) (insights : List String)
    (jsonLoads : String → Except String PyV) : RemoteOutcome → Except String EmailResult
  | .httpError errDesc respText => do
    let r ← generate_email_template company insights
    pure { r with source := some "template",
                  error := some ("RequestError: " ++ errDesc ++ "; response=" ++
                    (match respText with | some t => pyTake t 300 | none => "")) }
  | .content content =>
    match jsonLoads (cleanContent content) with
    | .ok (.dictV fields) =>
      .ok { company := pyOr (dictGetD fields "company") (optStrPyV company.companyName),
            subject := pyOr (dictGetD fields "subject") (.strV "Exploring a tailored approach"),
            body := pyOr (dictGetD fields "body") (.strV ""),
            tone := pyOr (dictGetD fields "tone") (.strV "consultative"),
            wordCount := pyOr (dictGetD fields "wordCount") .noneV,
            source := some "groq", error := none }
    | .ok obj => do
      let r ← generate_email_template company insights
      pure { r with source := some "template",
                    error := some ("ParseError: \x27" ++ pyTypeName obj
                      ++ "\x27 object has no attribute \x27get\x27; content="
                      ++ pyTake content 300 ++ "...") }
    | .error parse_err => do
      let r ← generate_email_template company insights
      pure { r with source := some "template",
                    error := some ("ParseError: " ++ parse_err ++ "; content="
                      ++ pyTake content 300 ++ "...") }

def generate_email_with_groq (api_key : Option String) (company : Record)
    (insights : List String) (remote : RemoteOutcome)
    (jsonLoads : String → Except String PyV) : Except String EmailResult :=
  if pyTruthyOptStr api_key then
    groq_remote_result company insights jsonLoads remote
  else do
    let r ← generate_email_template company insights
    pure { r with source := some "template", error := some "Missing GROQ_API_KEY" }

/-! Helper lemmas shared by the claim theorems. -/

theorem filter_loop_eq_filter (iq lq : String) (a b : Int) (items : List Record) :
    filter_companies_loop iq lq a b items = items.filter (record_ok iq lq a b) := by
  induction items with
  | nil => rfl
  | cons it rest ih =>
    by_cases h : record_ok iq lq a b it = true <;>
      simp [filter_companies_loop, List.filter_cons, h, ih]

theorem record_ok_eq_matchesSpec (iq lq : String) (a b : Int) (it : Record) :
    record_ok (pyTrim (pyLower iq)) (pyTrim (pyLower lq)) a b it = matchesSpec iq lq a b it := by
  unfold record_ok matchesSpec
  by_cases h1 : pyTrim (pyLower iq) = "" <;> by_cases h2 : pyTrim (pyLower lq) = "" <;>
    simp [h1, h2, ge_iff_le]

theorem length_take_three_of_ne_nil {l : List String} (h : l ≠ []) :
    1 ≤ (l.take 3).length ∧ (l.take 3).length ≤ 3 := by
  have hl : 1 ≤ l.length := by
    cases l with
    | nil => exact absurd rfl h
    | cons x xs => simp
  refine ⟨?_, List.length_take_le 3 l⟩
  rw [List.length_take]
  omega

/-- C1: filter_companies returns exactly the sublist of records, in
input order and without deduplication, whose employeeCount lies in the
inclusive range and whose industry and location contain the trimmed,
lower-cased queries as case-insensitive substrings (each query
possibly empty): it equals a list-filter of that predicate over the
input, for every input list. -/
theorem filter_companies_eq_spec_filter (items : List Record)
    (industryQuery locationQuery : String) (sizeMin sizeMax : Int) :
    filter_companies items industryQuery locationQuery sizeMin sizeMax
      = items.filter (matchesSpec industryQuery locationQuery sizeMin sizeMax) := by
  unfold filter_companies
  rw [filter_loop_eq_filter]
  exact List.filter_congr fun x _ =>
    record_ok_eq_matchesSpec industryQuery locationQuery sizeMin sizeMax x

/-- C2: on the Logistics record with 210 employees in Hyderabad, IN,
add_insights yields exactly the two logistics insights followed by the
mid-market insight, and the India-location rule (which does fire on
this location, as the second conjunct shows) is dropped by the
truncation to the first 3 entries. -/
theorem add_insights_logistics_truncates_to_three :
    add_insights
        { companyName := some "AeroLogix Systems", website := some "https://aerologix.example",
          employeeCount := some 210, industry := some "Logistics",
          location := some "Hyderabad, IN" }
      = ["Fleet optimization & real-time tracking",
         "Likely evaluating warehouse automation",
         "Mid-market team with scaling pains"]
    ∧ locationMatchesIndia "Hyderabad, IN" = true :=
  ⟨rfl, rfl⟩

/-- C9: for every company record, add_insights returns between 1 and 3
insights: the industry branch always contributes at least one bullet
(the unmatched-industry branch adds Expanding digital footprint), and
the final truncation caps the list at 3. -/
theorem add_insights_length_one_to_three (j : Record) :
    1 ≤ (add_insights j).length ∧ (add_insights j).length ≤ 3 := by
  simp only [add_insights]
  apply length_take_three_of_ne_nil
  split_ifs <;> simp

/-- C10: when sizeMin exceeds sizeMax the size test can never hold, so
filter_companies returns the empty list for every input list and
queries; the bounds are applied as given, with no validation or
swapping. -/
theorem filter_companies_empty_on_inverted_range (items : List Record)
    (iq lq : String) (sizeMin sizeMax : Int) (h : sizeMax < sizeMin) :
    filter_companies items iq lq sizeMin sizeMax = [] := by
  unfold filter_companies
  rw [filter_loop_eq_filter, List.filter_eq_nil_iff]
  intro x _
  unfold record_ok
  intro hc
  simp only [Bool.and_eq_true, decide_eq_true_eq, ge_iff_le] at hc
  obtain ⟨⟨⟨h1, h2⟩, -⟩, -⟩ := hc
  omega

/-- Witness for C10 at a concrete inverted range over the seed data. -/
theorem filter_companies_empty_on_inverted_range_witness :
    (5 : Int) < 10 ∧ filter_companies SEED_COMPANIES "" "" 10 5 = [] :=
  ⟨by decide, filter_companies_empty_on_inverted_range SEED_COMPANIES "" "" 10 5 (by decide)⟩

theorem raw_loop_isOk (iq lq : String) (a b : Int) :
    ∀ items : List RawRecord, (∀ r ∈ items, coercibleEmployeeCount r = true) →
      (filter_companies_raw_loop iq lq a b items).isOk = true
  | [], _ => rfl
  | it :: rest, h => by
    have hh : coercibleEmployeeCount it = true := h it (List.mem_cons_self it rest)
    have ht : ∀ r ∈ rest, coercibleEmployeeCount r = true :=
      fun r hr => h r (List.mem_cons_of_mem it hr)
    have hrec := raw_loop_isOk iq lq a b rest ht
    unfold filter_companies_raw_loop
    unfold coercibleEmployeeCount at hh
    cases hec : rawEmployeeCount it with
    | error e => rw [hec] at hh; exact Bool.noConfusion hh
    | ok n =>
      cases hrest : filter_companies_raw_loop iq lq a b rest with
      | ok out => rfl
      | error e => rw [hrest] at hrec; exact Bool.noConfusion hrec

/-- C5 counterexample: a record whose employeeCount is the string abc
makes filter_companies raise a ValueError from int(), so the function
is not total over arbitrary record maps. -/
theorem filter_companies_raw_fails_on_non_coercible :
    filter_companies_raw [{ employeeCount := some (.strV "abc") }] "" "" 0 999999
      = .error "ValueError: invalid literal for int() with base 10: abc" :=
  rfl

/-- C5 (amended): filter_companies never fails on records whose
employeeCount is absent (treated as 0) or coercible by Python int()
(an integer, a bool, or an integer-formatted string); totality holds
over such records, not over arbitrary maps. -/
theorem filter_companies_raw_total_on_coercible (items : List RawRecord)
    (iq lq : String) (a b : Int)
    (h : ∀ r ∈ items, coercibleEmployeeCount r = true) :
    (filter_companies_raw items iq lq a b).isOk = true := by
  unfold filter_companies_raw
  exact raw_loop_isOk _ _ a b items h

/-- Raw records with coercible employee counts used by the C5 witness. -/
def c5items : List RawRecord :=
  [{ employeeCount := some (.strV "120") }, { employeeCount := some (.boolV true) }, {}]

/-- Witness for C5 (amended) on a concrete list of raw records. -/
theorem filter_companies_raw_total_on_coercible_witness :
    (∀ r ∈ c5items, coercibleEmployeeCount r = true)
      ∧ (filter_companies_raw c5items "" "" 0 999999).isOk = true :=
  ⟨by decide, filter_companies_raw_total_on_coercible c5items "" "" 0 999999 (by decide)⟩

/-! Email-path lemmas and claim theorems. -/

theorem template_eq_of_industry_some (c : Record) (ins : List String) (ind : String)
    (h : c.industry = some ind) :
    generate_email_template c ins = .ok (templateResult c ins ind) := by
  unfold generate_email_template
  rw [h]

theorem template_eq_of_industry_none (c : Record) (ins : List String)
    (h : c.industry = none) :
    generate_email_template c ins
      = .error "AttributeError: \x27NoneType\x27 object has no attribute \x27lower\x27" := by
  unfold generate_email_template
  rw [h]

/-- Whether an email-generation outcome is a result dict carrying an
error key. -/
def exceptHasErrorField : Except String EmailResult → Bool
  | .ok r => r.error.isSome
  | .error _ => false

/-- The whitespace-token count of a value, when it is a string. -/
def strTokenCount : PyV → Option Nat
  | .strV s => some (pySplitWS s).length
  | _ => none

/-- A concrete company with an industry, used by witnesses. -/
def cWithInd : Record :=
  { companyName := some "TechNova Solutions", industry := some "Software",
    employeeCount := some 120 }

/-- A concrete company without an industry key, used by witnesses. -/
def cNoInd : Record :=
  { companyName := some "Anon Co" }

/-- C8: generate_email_template never fails and never sets an error
field provided the company's industry is present as a string; for a
company whose industry key is absent, the lower-casing in the subject
raises AttributeError, so the operation is not total. -/
theorem template_total_iff_industry_present (c : Record) (ins : List String) (ind : String) :
    (c.industry = some ind →
      (generate_email_template c ins).isOk = true
        ∧ exceptHasErrorField (generate_email_template c ins) = false)
    ∧ (c.industry = none →
      generate_email_template c ins
        = .error "AttributeError: \x27NoneType\x27 object has no attribute \x27lower\x27") := by
  constructor
  · intro h
    rw [template_eq_of_industry_some c ins ind h]
    exact ⟨rfl, rfl⟩
  · intro h
    exact template_eq_of_industry_none c ins h

/-- Witness for C8: both conjuncts at concrete companies. -/
theorem template_total_iff_industry_present_witness :
    ((generate_email_template cWithInd ["a"]).isOk = true
      ∧ exceptHasErrorField (generate_email_template cWithInd ["a"]) = false)
    ∧ generate_email_template cNoInd ["a"]
        = .error "AttributeError: \x27NoneType\x27 object has no attribute \x27lower\x27" :=
  ⟨(template_total_iff_industry_present cWithInd ["a"] "Software").1 rfl,
   (template_total_iff_industry_present cNoInd ["a"] "Software").2 rfl⟩

/-- C4: generate_email_template is deterministic (it is a pure
function, so two calls on identical input are identical), and whenever
it returns a result, the result's wordCount is exactly the
whitespace-token count of the result's body string. -/
theorem template_deterministic_wordcount (c : Record) (ins : List String) (r : EmailResult)
    (h : generate_email_template c ins = .ok r) :
    generate_email_template c ins = generate_email_template c ins
      ∧ (strTokenCount r.body).map (fun n => PyV.intV (n : Int)) = some r.wordCount := by
  refine ⟨rfl, ?_⟩
  cases hind : c.industry with
  | none =>
    rw [template_eq_of_industry_none c ins hind] at h
    exact Except.noConfusion h
  | some ind =>
    rw [template_eq_of_industry_some c ins ind hind] at h
    injection h with h2
    subst h2
    rfl

/-- Witness for C4 at a concrete company and insight list. -/
theorem template_deterministic_wordcount_witness :
    generate_email_template cWithInd ["a"] = generate_email_template cWithInd ["a"]
      ∧ (strTokenCount (templateResult cWithInd ["a"] "Software").body).map
            (fun n => PyV.intV (n : Int))
          = some (templateResult cWithInd ["a"] "Software").wordCount :=
  template_deterministic_wordcount cWithInd ["a"] (templateResult cWithInd ["a"] "Software") rfl

/-- C3: when no credential is configured (the key is absent or empty,
hence falsy), generate_email_with_groq returns exactly the template
result with source template and error Missing GROQ_API_KEY; the remote
outcome and the JSON parser are arbitrary and unused, so no remote
call is consulted. -/
theorem groq_missing_key_returns_template (api_key : Option String) (c : Record)
    (ins : List String) (remote : RemoteOutcome) (jsonLoads : String → Except String PyV)
    (r : EmailResult)
    (hk : pyTruthyOptStr api_key = false)
    (ht : generate_email_template c ins = .ok r) :
    generate_email_with_groq api_key c ins remote jsonLoads
      = .ok { r with source := some "template", error := some "Missing GROQ_API_KEY" } := by
  unfold generate_email_with_groq
  rw [hk, if_neg Bool.false_ne_true, ht]
  rfl

/-- Witness for C3 with an absent key and a concrete company, remote
outcome, and parser. -/
theorem groq_missing_key_returns_template_witness :
    generate_email_with_groq none cWithInd ["a"] (.content "zzz") (fun _ => .error "Expecting value")
      = .ok { templateResult cWithInd ["a"] "Software" with
              source := some "template", error := some "Missing GROQ_API_KEY" } :=
  groq_missing_key_returns_template none cWithInd ["a"] (.content "zzz")
    (fun _ => .error "Expecting value") (templateResult cWithInd ["a"] "Software") rfl rfl

theorem startsWithList_append (pre rest : List Char) :
    startsWithList pre (pre ++ rest) = true := by
  induction pre with
  | nil => cases rest <;> rfl
  | cons a as ih => simp [startsWithList, ih]

theorem strStartsWith_append (pre rest : String) :
    strStartsWith (pre ++ rest) pre = true := by
  unfold strStartsWith
  rw [String.data_append]
  exact startsWithList_append pre.data rest.data

/-- C6: on a remote response whose fence-stripped content fails to
parse as JSON, generate_email_with_groq returns the template result
with source template and a non-empty error that begins with
ParseError: and carries the first 300 characters of the raw content
followed by an ellipsis marker. -/
theorem groq_parse_error_returns_template (api_key : Option String) (c : Record)
    (ins : List String) (raw e : String) (jsonLoads : String → Except String PyV)
    (r : EmailResult)
    (hk : pyTruthyOptStr api_key = true)
    (hp : jsonLoads (cleanContent raw) = .error e)
    (ht : generate_email_template c ins = .ok r) :
    generate_email_with_groq api_key c ins (.content raw) jsonLoads
      = .ok { r with source := some "template",
                     error := some ("ParseError: " ++ e ++ "; content=" ++ pyTake raw 300 ++ "...") }
    ∧ strStartsWith ("ParseError: " ++ e ++ "; content=" ++ pyTake raw 300 ++ "...") "ParseError: " = true
    ∧ ("ParseError: " ++ e ++ "; content=" ++ pyTake raw 300 ++ "...") ≠ "" := by
  refine ⟨?_, ?_, ?_⟩
  · unfold generate_email_with_groq
    rw [hk, if_pos rfl]
    simp only [groq_remote_result]
    rw [hp, ht]
    rfl
  · rw [String.append_assoc, String.append_assoc, String.append_assoc]
    exact strStartsWith_append "ParseError: " _
  · intro hcontra
    have h2 := congrArg String.length hcontra
    simp only [String.length_append] at h2
    rw [show ("ParseError: ").length = 12 from rfl] at h2
    rw [show ("" : String).length = 0 from rfl] at h2
    omega

/-- A JSON parser stand-in that fails on every content, used by the C6
witness. -/
def failParseStub : String → Except String PyV :=
  fun _ => .error "Expecting value: line 1 column 1 (char 0)"

/-- Witness for C6 with a concrete key, company, content and parser. -/
theorem groq_parse_error_returns_template_witness :
    generate_email_with_groq (some "key") cWithInd ["a"] (.content "not json") failParseStub
      = .ok { templateResult cWithInd ["a"] "Software" with
              source := some "template",
              error := some ("ParseError: " ++ "Expecting value: line 1 column 1 (char 0)"
                ++ "; content=" ++ pyTake "not json" 300 ++ "...") }
    ∧ strStartsWith ("ParseError: " ++ "Expecting value: line 1 column 1 (char 0)"
        ++ "; content=" ++ pyTake "not json" 300 ++ "...") "ParseError: " = true
    ∧ ("ParseError: " ++ "Expecting value: line 1 column 1 (char 0)"
        ++ "; content=" ++ pyTake "not json" 300 ++ "...") ≠ "" :=
  groq_parse_error_returns_template (some "key") cWithInd ["a"] "not json"
    "Expecting value: line 1 column 1 (char 0)" failParseStub
    (templateResult cWithInd ["a"] "Software") rfl rfl rfl

theorem pyOr_dictGetD_eq_specDefault (fields : List (String × PyV)) (k : String) (d : PyV) :
    pyOr (dictGetD fields k) d = specDefault (dictLookup fields k) d := by
  unfold pyOr dictGetD specDefault
  cases dictLookup fields k with
  | none => rfl
  | some v => rfl

/-- A JSON parser stand-in that parses the content 42 to the JSON
number 42, exactly as json.loads does, used by the C7 counterexample. -/
def intParseStub : String → Except String PyV :=
  fun s => if s = "42" then .ok (.intV 42) else .error "Expecting value"

/-- C7 counterexample: the content 42 parses as JSON (the integer 42),
yet the result has source template rather than groq, because obj.get
on the non-dict parsed value raises AttributeError inside the parse
try block, which the code reports as a ParseError fallback. -/
theorem groq_json_non_object_counterexample :
    intParseStub (cleanContent "42") = .ok (.intV 42)
      ∧ generate_email_with_groq (some "key") cWithInd ["a"] (.content "42") intParseStub
          = .ok { templateResult cWithInd ["a"] "Software" with
                  source := some "template",
                  error := some "ParseError: \x27int\x27 object has no attribute \x27get\x27; content=42..." } :=
  ⟨rfl, rfl⟩

/-- C7 (amended): on a remote response whose content parses as a JSON
object, generate_email_with_groq returns a groq-sourced result with no
error, where each of company, subject, body, tone and wordCount takes
the parsed field when present and truthy and its default when absent
or falsy (company name, a fixed subject, the empty string,
consultative, and no value respectively); a content parsing to a
non-object JSON value instead takes the ParseError template fallback. -/
theorem groq_json_object_applies_defaults (api_key : Option String) (c : Record)
    (ins : List String) (raw : String) (fields : List (String × PyV))
    (jsonLoads : String → Except String PyV)
    (hk : pyTruthyOptStr api_key = true)
    (hp : jsonLoads (cleanContent raw) = .ok (.dictV fields)) :
    generate_email_with_groq api_key c ins (.content raw) jsonLoads
      = .ok { company := specDefault (dictLookup fields "company") (optStrPyV c.companyName),
              subject := specDefault (dictLookup fields "subject") (.strV "Exploring a tailored approach"),
              body := specDefault (dictLookup fields "body") (.strV ""),
              tone := specDefault (dictLookup fields "tone") (.strV "consultative"),
              wordCount := specDefault (dictLookup fields "wordCount") .noneV,
              source := some "groq", error := none } := by
  have hstep : generate_email_with_groq api_key c ins (.content raw) jsonLoads
      = .ok { company := pyOr (dictGetD fields "company") (optStrPyV c.companyName),
              subject := pyOr (dictGetD fields "subject") (.strV "Exploring a tailored approach"),
              body := pyOr (dictGetD fields "body") (.strV ""),
              tone := pyOr (dictGetD fields "tone") (.strV "consultative"),
              wordCount := pyOr (dictGetD fields "wordCount") .noneV,
              source := some "groq", error := none } := by
    unfold generate_email_with_groq
    rw [hk, if_pos rfl]
    simp only [groq_remote_result]
    rw [hp]
  rw [hstep]
  simp only [pyOr_dictGetD_eq_specDefault]

/-- A JSON parser stand-in that parses an empty JSON object, used by
the C7 witness. -/
def emptyDictStub : String → Except String PyV :=
  fun s => if s = "\x7b\x7d" then .ok (.dictV []) else .error "Expecting value"

/-- Witness for C7 (amended) on an empty parsed object: every field
takes its default. -/
theorem groq_json_object_applies_defaults_witness :
    generate_email_with_groq (some "key") cWithInd ["a"] (.content "\x7b\x7d") emptyDictStub
      = .ok { company := specDefault (dictLookup [] "company") (optStrPyV cWithInd.companyName),
              subject := specDefault (dictLookup [] "subject") (.strV "Exploring a tailored approach"),
              body := specDefault (dictLookup [] "body") (.strV ""),
              tone := specDefault (dictLookup [] "tone") (.strV "consultative"),
              wordCount := specDefault (dictLookup [] "wordCount") .noneV,
              source := some "groq", error := none } :=
  groq_json_object_applies_defaults (some "key") cWithInd ["a"] "\x7b\x7d" [] emptyDictStub rfl rfl

end App
